import Mathlib

/-!
# Verification of the grafana `reporter` report-generation core

Shallow embedding of the report-generation pipeline of the repository
(`report` package in `src/unnamed/part_000`, `grafana/writeup.go`).
External effects (the Grafana HTTP client, the SQL database, the
filesystem and the spawned compiler processes) are modelled as explicit
environment records of oracles; each embedded function returns its
caller-visible result together with the observable effects (files
written, commands spawned, connections opened) that the claims talk
about.
-/

namespace Reporter

/-! ## Data model (`grafana` package) -/

/-- One chart within a dashboard (`grafana.Panel`): numeric id and title. -/
structure Panel where
  Id : Int
  Title : String
  deriving Repr, DecidableEq

/-- A dashboard (`grafana.Dashboard`): title and ordered panel list. -/
structure Dashboard where
  Title : String
  Panels : List Panel
  deriving Repr, DecidableEq

/-- Time range (`grafana.TimeRange`): from/to boundary strings. -/
structure TimeRange where
  FromT : String
  ToT : String
  deriving Repr, DecidableEq

/-- One titled block of narrative text (`grafana.Section`). -/
structure Sect where
  Title : String
  Content : String
  deriving Repr, DecidableEq

/-- The narrative writeup (`grafana.Writeup`): an ordered section list. -/
structure Writeup where
  Sections : List Sect
  deriving Repr, DecidableEq

/-! ## Writeup client (`grafana/writeup.go`) -/

/-- The writeup client configuration (`grafana.writeupClient`).  The
`ids` are the report ids parsed by the handler (`[]interface{}` holding
int64 values in the source). -/
structure WriteupCl where
  username : String
  password : String
  host : String
  port : String
  database : String
  ids : List Int
  queryStr : String

/-- Environment of database effects for `GetWriteup`: the outcome of
`sql.Open`, of `db.Query`, and the scanned rows.  Each element of `rows`
is one `results.Next()` iteration: either the row scans into a
title/content pair or `results.Scan` fails with an error. -/
structure DbEnv where
  openErr : Option String
  queryErr : Option String
  rows : List (Except String (String × String))

/-- Caller-visible result of `GetWriteup` together with the observable
database effects: whether `sql.Open` was called and whether `db.Query`
was issued. -/
structure WriteupResult where
  writeup : Writeup
  err : Option String
  opened : Bool
  queried : Bool
  deriving Repr, DecidableEq

/-- The row-scanning loop of `GetWriteup`: rows are scanned in order,
the first `Scan` error aborts with that error, and each successfully
scanned row has `sanitizeLaTexInput` applied to both its title and its
content before being appended. -/
def scanSections (sanitizeLaTexInput : String → String) :
    List (Except String (String × String)) → Except String (List Sect)
  | [] => Except.ok []
  | Except.error e :: _ => Except.error e
  | Except.ok (t, c) :: rest =>
      (scanSections sanitizeLaTexInput rest).map
        (fun secs => { Title := sanitizeLaTexInput t,
                       Content := sanitizeLaTexInput c } :: secs)

/-- `(*writeupClient).GetWriteup` from `grafana/writeup.go`.  The
sanitizer `sanitizeLaTexInput` is defined elsewhere in the `grafana`
package (its file is not part of the sources here), so it is kept as an
abstract string transformer parameter: the claims about `GetWriteup`
only require that results pass through it, not what it rewrites. -/
def GetWriteup (sanitizeLaTexInput : String → String) (env : DbEnv)
    (c : WriteupCl) : WriteupResult :=
  if c.ids.length = 0 then
    { writeup := { Sections := [] }, err := none, opened := false, queried := false }
  else
    match env.openErr with
    | some e => { writeup := { Sections := [] }, err := some e, opened := true, queried := false }
    | none =>
      match env.queryErr with
      | some e => { writeup := { Sections := [] }, err := some e, opened := true, queried := true }
      | none =>
        match scanSections sanitizeLaTexInput env.rows with
        | Except.error e =>
            { writeup := { Sections := [] }, err := some e, opened := true, queried := true }
        | Except.ok secs =>
            { writeup := { Sections := secs }, err := none, opened := true, queried := true }

/-! ## Report configuration (`report` package) -/

/-- Modelled from the spec: the built-in default TeX template (the
source file holding the `defaultTemplate` constant is not among the
sources here; the spec only says a built-in default template exists and
is used when the caller supplies none).  Its content is irrelevant to
the claims, so a fixed stand-in string represents it. -/
def defaultTemplate : String := "builtin default TeX template"

/-- Well-known file names (`const` block of the `report` package). -/
def imgDir : String := "images"

/-- Name of the generated TeX source file. -/
def reportTexFile : String := "report.tex"

/-- Name of the intermediate xdv file used by the xelatex variant. -/
def reportXdvFile : String := "report.xdv"

/-- Name of the final artifact file. -/
def reportPdf : String := "report.pdf"

/-- The fixed worker count of the fetcher pool: `renderPNGsParallel`
sets `workers := 5` and spawns that many goroutines unconditionally. -/
def workers : Nat := 5

/-- The report state (`grafanaReport`), restricted to the fields the
embedded operations read.  The Grafana client and its oracle outcomes
live in the effect environments instead of the record. -/
structure ReportCfg where
  wc : WriteupCl
  time : TimeRange
  texTemplate : String
  dashName : String
  tmpDir : String
  useXelatex : Bool

/-- `newReport`: substitutes the default template for an empty template
string and derives the per-request temporary directory from a fresh
identifier (`uuid.New()` is modelled by the `uuid` argument). -/
def newReport (dbHost dbPort username password database : String)
    (dashName : String) (time : TimeRange) (texTemplate : String)
    (ids : List Int) (queryStr : String) (useXelatex : Bool)
    (uuid : String) : ReportCfg :=
  let texTemplate' := if texTemplate = "" then defaultTemplate else texTemplate
  let tmpDir := "tmp" ++ "/" ++ uuid
  let wc : WriteupCl :=
    { username := username, password := password, host := dbHost,
      port := dbPort, database := database, ids := ids, queryStr := queryStr }
  { wc := wc, time := time, texTemplate := texTemplate',
    dashName := dashName, tmpDir := tmpDir, useXelatex := useXelatex }

/-- `imgDirPath`: `filepath.Join(rep.tmpDir, imgDir)`. -/
def imgDirPath (rep : ReportCfg) : String := rep.tmpDir ++ "/" ++ imgDir

/-- `pdfPath`: `filepath.Join(rep.tmpDir, reportPdf)`. -/
def pdfPath (rep : ReportCfg) : String := rep.tmpDir ++ "/" ++ reportPdf

/-- `texPath`: `filepath.Join(rep.tmpDir, reportTexFile)`. -/
def texPath (rep : ReportCfg) : String := rep.tmpDir ++ "/" ++ reportTexFile

/-- Model of Go's `%+v` formatting of a `Panel` value, used inside
wrapped error messages.  The exact `fmt` rendering is immaterial to the
claims (they never inspect this part of a message). -/
def panelFmt (p : Panel) : String :=
  "\x7bId:" ++ toString p.Id ++ " Title:" ++ p.Title ++ "\x7d"

/-- Model of Go's `%+v` formatting of a `Dashboard` value (see
`panelFmt`). -/
def dashFmt (d : Dashboard) : String :=
  "\x7bTitle:" ++ d.Title ++ " Panels:" ++ toString (d.Panels.map panelFmt) ++ "\x7d"

/-- Model of Go's `%q` formatting of an error value in `fmt.Errorf`. -/
def quoteStr (s : String) : String := "\"" ++ s ++ "\""

/-! ## Document assembler (`generateTeXFile`) -/

/-- Filesystem/template oracles for `generateTeXFile`: the outcome of
`os.MkdirAll(rep.tmpDir, 0777)`, of `os.Create(rep.texPath())`, of
parsing a given template source with `template.New("report").Delims("[[",
"]]").Parse`, and of `tmpl.Execute` on the bound context. -/
structure TexEnv where
  mkdirErr : Option String
  createErr : Option String
  parseErr : String → Option String
  execErr : Option String

/-- Caller-visible result of `generateTeXFile` plus the file effects:
whether the tex file was created on disk at all, and whether a complete
document-source file was written (`tmpl.Execute` ran to completion; on
an execution error the file holds only a partial prefix). -/
structure TexResult where
  err : Option String
  fileCreated : Bool
  fileComplete : Bool
  deriving Repr, DecidableEq

/-- `generateTeXFile`: create the workspace directory, create the tex
file, parse the template, execute it into the file.  Each failure is
wrapped with stage context exactly as in the source `fmt.Errorf`
patterns. -/
def generateTeXFile (env : TexEnv) (rep : ReportCfg) : TexResult :=
  match env.mkdirErr with
  | some e =>
      { err := some ("error creating temporary directory at " ++ rep.tmpDir ++ ": " ++ e),
        fileCreated := false, fileComplete := false }
  | none =>
    match env.createErr with
    | some e =>
        { err := some ("error creating tex file at " ++ texPath rep ++ " : " ++ e),
          fileCreated := false, fileComplete := false }
    | none =>
      match env.parseErr rep.texTemplate with
      | some e =>
          { err := some ("error parsing template '" ++ rep.texTemplate ++ "': " ++ e),
            fileCreated := true, fileComplete := false }
      | none =>
        match env.execErr with
        | some e =>
            { err := some ("error executing tex template:" ++ e),
              fileCreated := true, fileComplete := false }
        | none => { err := none, fileCreated := true, fileComplete := true }

/-! ## Compiler driver (`runLaTeX`) -/

/-- One external command invocation: executable name and arguments.
Both are always run with `cmd.Dir = rep.tmpDir`. -/
structure Cmd where
  name : String
  args : List String
  deriving Repr, DecidableEq

/-- Outcome of `cmd.CombinedOutput()`: `exitErr` is the non-nil `error`
when the process exits non-zero (or fails to start), `output` the
combined stdout+stderr text. -/
structure CmdOut where
  exitErr : Option String
  output : String

/-- Process/filesystem oracles for `runLaTeX`: the outcome of running a
given command, and the outcome of `os.Open(rep.pdfPath())` (the opened
file's contents on success, the `error` otherwise). -/
structure LatexEnv where
  run : Cmd → CmdOut
  openFile : String → Except String String

/-- Caller-visible result of `runLaTeX` plus the spawned-process trace:
`pdf` is the returned `*os.File` handle (modelled by its contents),
`calls` the commands actually executed, in order. -/
structure LatexResult where
  pdf : Option String
  err : Option String
  calls : List Cmd
  deriving Repr, DecidableEq

/-- `runLaTeX`, both toolchain variants.  Note the source's final lines:
`pdf, err = os.Open(rep.pdfPath()); return nil, err` — the function
returns the literal `nil` for the handle even when the open succeeded,
so the `pdf` field below is `none` on every path. -/
def runLaTeX (env : LatexEnv) (rep : ReportCfg) : LatexResult :=
  if !rep.useXelatex then
    let cmdPre : Cmd := { name := "pdflatex", args := ["-halt-on-error", "-draftmode", reportTexFile] }
    let outPre := env.run cmdPre
    match outPre.exitErr with
    | some e =>
        { pdf := none,
          err := some ("error calling LaTeX preprocessing: " ++ quoteStr e ++
            ". Latex preprocessing failed with output: " ++ outPre.output ++ " "),
          calls := [cmdPre] }
    | none =>
      let cmd : Cmd := { name := "pdflatex", args := ["-halt-on-error", reportTexFile] }
      let outMain := env.run cmd
      match outMain.exitErr with
      | some e =>
          { pdf := none,
            err := some ("error calling LaTeX: " ++ quoteStr e ++
              ". Latex failed with output: " ++ outMain.output ++ " "),
            calls := [cmdPre, cmd] }
      | none =>
        match env.openFile (pdfPath rep) with
        | Except.ok _contents => { pdf := none, err := none, calls := [cmdPre, cmd] }
        | Except.error e => { pdf := none, err := some e, calls := [cmdPre, cmd] }
  else
    let cmdPre : Cmd := { name := "xelatex", args := ["-halt-on-error", "-no-pdf", reportTexFile] }
    let outPre := env.run cmdPre
    match outPre.exitErr with
    | some e =>
        { pdf := none,
          err := some ("error calling LaTeX: " ++ quoteStr e ++
            ". Latex failed with output: " ++ outPre.output ++ " "),
          calls := [cmdPre] }
    | none =>
      let cmd : Cmd := { name := "xdvipdfmx", args := ["-vv", reportXdvFile] }
      let outMain := env.run cmd
      match outMain.exitErr with
      | some e =>
          { pdf := none,
            err := some ("error calling xdvipdfmx: " ++ quoteStr e ++
              ". xdvipdfmx failed with output: " ++ outMain.output ++ " "),
            calls := [cmdPre, cmd] }
      | none =>
        match env.openFile (pdfPath rep) with
        | Except.ok _contents => { pdf := none, err := none, calls := [cmdPre, cmd] }
        | Except.error e => { pdf := none, err := some e, calls := [cmdPre, cmd] }

/-- The first compiler invocation of the selected toolchain variant. -/
def firstCmd (rep : ReportCfg) : Cmd :=
  if !rep.useXelatex then
    { name := "pdflatex", args := ["-halt-on-error", "-draftmode", reportTexFile] }
  else
    { name := "xelatex", args := ["-halt-on-error", "-no-pdf", reportTexFile] }

/-! ## Snapshot fetcher (`renderPNG`, `renderPNGsParallel`)

`renderPNGsParallel` enqueues all panels on a buffered channel, spawns
`workers = 5` goroutines that each run `renderPNG` on one panel at a
time, pushing any error onto a buffered error channel, then joins and
drains.  Functionally this is the multiset of per-panel `renderPNG`
outcomes; the only nondeterminism is the interleaving, i.e. the order
in which jobs complete and errors reach the channel.  The functional
model below therefore runs the jobs sequentially along an arbitrary
`order`, a permutation of `dash.Panels`; a separate small-step model
(further down) covers the concurrency-shape claims. -/

/-- Grafana/filesystem oracles for `renderPNG`: the outcome of
`GetPanelPng`, of `os.MkdirAll` on the image directory, of `os.Create`
on a given image path, and of the `io.Copy` of the body into the file. -/
structure FetchEnv where
  getPanelPng : Panel → Except String String
  mkdirAllErr : String → Option String
  createErr : String → Option String
  copyErr : Panel → Option String

/-- The image file name for a panel: `fmt.Sprintf("image%d.png", p.Id)`. -/
def imgFileName (p : Panel) : String := "image" ++ toString p.Id ++ ".png"

/-- Full on-disk path of a panel's image:
`filepath.Join(rep.imgDirPath(), imgFileName)`. -/
def imgFilePath (rep : ReportCfg) (p : Panel) : String :=
  imgDirPath rep ++ "/" ++ imgFileName p

/-- `renderPNG`: fetch the panel image, create the image directory,
create the image file, copy the body into it.  Result: the path of the
image file created on disk (if `os.Create` succeeded), and the error
returned to the worker (with the source's wrapping), if any. -/
def renderPNG (env : FetchEnv) (rep : ReportCfg) (p : Panel) :
    Option String × Option String :=
  match env.getPanelPng p with
  | Except.error e => (none, some ("error getting panel " ++ panelFmt p ++ ": " ++ e))
  | Except.ok _body =>
    match env.mkdirAllErr (imgDirPath rep) with
    | some e => (none, some ("error creating img directory:" ++ e))
    | none =>
      match env.createErr (imgFilePath rep p) with
      | some e => (none, some ("error creating image file:" ++ e))
      | none =>
        match env.copyErr p with
        | some e => (some (imgFilePath rep p), some ("error copying body to file:" ++ e))
        | none => (some (imgFilePath rep p), none)

/-- Accumulated observable outcome of running the pool's jobs: the image
files created (in job completion order) and the errors pushed onto the
error channel (in collection order). -/
structure PoolRun where
  writes : List String
  errsCollected : List String
  deriving Repr, DecidableEq

/-- Run each panel job in the given completion order, accumulating file
writes and collected errors. -/
def runJobs (env : FetchEnv) (rep : ReportCfg) : List Panel → PoolRun
  | [] => { writes := [], errsCollected := [] }
  | p :: rest =>
    let r := renderPNG env rep p
    let tail := runJobs env rep rest
    { writes := r.1.toList ++ tail.writes,
      errsCollected := r.2.toList ++ tail.errsCollected }

/-- `renderPNGsParallel`, functional view: all jobs run to completion
(the `wg.Wait()` join), the error channel is closed and drained, and the
first collected error — if any — is returned.  `order` is the job
completion/collection order chosen by the scheduler, a permutation of
`dash.Panels`. -/
def renderPNGsParallel (env : FetchEnv) (rep : ReportCfg)
    (order : List Panel) : PoolRun × Option String :=
  let r := runJobs env rep order
  (r, r.errsCollected.head?)

/-- The number of worker goroutines `renderPNGsParallel` spawns for a
dashboard: the source spawns the fixed `workers = 5` goroutines before
consuming the channel, independently of the panel count. -/
def spawnedWorkers (_dash : Dashboard) : Nat := workers

/-! ## Workspace cleanup (`Clean`) -/

/-- A flat model of the filesystem for cleanup purposes: the list of
existing paths (membership of `p` means a file or directory `p`
exists). -/
def FS : Type := List String

/-- Structural character-list prefix test. -/
def strStarts : List Char → List Char → Bool
  | [], _ => true
  | _ :: _, [] => false
  | a :: as, b :: bs => a == b && strStarts as bs

/-- Is path `p` the root itself or a path inside the subtree rooted at
`root`? -/
def underRoot (root p : String) : Bool :=
  p = root || strStarts (root ++ "/").data p.data

/-- Does any entry of the workspace subtree rooted at `root` exist? -/
def existsUnder (fs : FS) (root : String) : Bool :=
  fs.any fun p => underRoot root p

/-- Oracle for OS-level removal failure in `os.RemoveAll` (permissions
and the like). -/
structure CleanEnv where
  removeFail : String → Option String

/-- `os.RemoveAll(path)`: returns nil when the path does not exist;
otherwise removes the subtree, or reports the OS failure. -/
def removeAll (env : CleanEnv) (fs : FS) (path : String) : FS × Option String :=
  if existsUnder fs path then
    match env.removeFail path with
    | some e => (fs, some e)
    | none => (fs.filter fun p => !(underRoot path p), none)
  else (fs, none)

/-- Filesystem plus log, the state `Clean` acts on.  `Clean` has no
error result in the source (`func (rep *grafanaReport) Clean()`), so the
model returns only the successor state. -/
structure CleanState where
  fs : FS
  logLines : List String

/-- `Clean`: `os.RemoveAll(rep.tmpDir)`; a removal error is written to
the log (`log.Println`) and nothing is surfaced to the caller. -/
def Clean (env : CleanEnv) (rep : ReportCfg) (s : CleanState) : CleanState :=
  match removeAll env s.fs rep.tmpDir with
  | (fs', some e) =>
      { fs := fs', logLines := s.logLines ++ ["Error cleaning up tmp dir: " ++ e] }
  | (fs', none) => { fs := fs', logLines := s.logLines }

/-! ## Orchestrator (`Generate`) -/

/-- The full effect environment `Generate` runs against, bundling the
sub-environments of each stage plus the dashboard fetch outcome, the
abstract sanitizer, and the scheduler's job completion order. -/
structure GenEnv where
  getDashboard : String → Except String Dashboard
  sanitizeLaTexInput : String → String
  db : DbEnv
  fetch : FetchEnv
  tex : TexEnv
  latex : LatexEnv
  order : Dashboard → List Panel

/-- Caller-visible result of `Generate` plus the stage trace: whether
`generateTeXFile` was invoked and whether `runLaTeX` was invoked. -/
structure GenTrace where
  pdf : Option String
  err : Option String
  texInvoked : Bool
  latexInvoked : Bool
  deriving Repr, DecidableEq

/-- `Generate`: fetch the dashboard, fetch the writeups, render the
panel images in parallel, generate the TeX file, run LaTeX.  Every
stage error is wrapped with stage context and short-circuits the
pipeline. -/
def Generate (env : GenEnv) (rep : ReportCfg) : GenTrace :=
  match env.getDashboard rep.dashName with
  | Except.error e =>
      { pdf := none, err := some ("error fetching dashboard " ++ rep.dashName ++ ": " ++ e),
        texInvoked := false, latexInvoked := false }
  | Except.ok dash =>
    match (GetWriteup env.sanitizeLaTexInput env.db rep.wc).err with
    | some e =>
        { pdf := none, err := some ("error fetching remote writeups: " ++ e),
          texInvoked := false, latexInvoked := false }
    | none =>
      match (renderPNGsParallel env.fetch rep (env.order dash)).2 with
      | some e =>
          { pdf := none,
            err := some ("error rendering PNGs in parralel for dash " ++ dashFmt dash ++ ": " ++ e),
            texInvoked := false, latexInvoked := false }
      | none =>
        match (generateTeXFile env.tex rep).err with
        | some e =>
            { pdf := none,
              err := some ("error generating TeX file for dash " ++ dashFmt dash ++ ": " ++ e),
              texInvoked := true, latexInvoked := false }
        | none =>
          let lr := runLaTeX env.latex rep
          { pdf := lr.pdf, err := lr.err, texInvoked := true, latexInvoked := true }

/-! ## Small-step model of the worker pool

The concurrency shape of `renderPNGsParallel`: a closed buffered job
channel holding the panels, `workers = 5` goroutines each of which
repeatedly pulls one job, runs `renderPNG` on it (at most one job in
flight per goroutine — the goroutine body is sequential), pushes the
error (if any) onto the error channel `errs` (buffered with capacity
`N = len(dash.Panels)`; a send would block when the buffer is full, so
the send step carries that guard), and exits once the job channel is
drained.  A scheduler interleaves these goroutines arbitrarily. -/

/-- Status of one worker goroutine. -/
inductive WStatus where
  | idle
  | busy (p : Panel)
  | done
  deriving Repr, DecidableEq

/-- Is the worker currently inside a `renderPNG` call? -/
def WStatus.isBusy : WStatus → Bool
  | WStatus.busy _ => true
  | _ => false

/-- Shared state of the pool: the remaining buffered job channel, the
status of each worker goroutine, and the error channel contents. -/
structure PoolState where
  queue : List Panel
  wstats : List WStatus
  errs : List String
  deriving Repr, DecidableEq

/-- The error returned by one `renderPNG` job, as pushed on the error
channel. -/
def renderErr (env : FetchEnv) (rep : ReportCfg) (p : Panel) : Option String :=
  (renderPNG env rep p).2

/-- Initial pool state: all panels buffered on the (then closed) job
channel, `workers` idle goroutines spawned, empty error channel. -/
def initState (dash : Dashboard) : PoolState :=
  { queue := dash.Panels, wstats := List.replicate workers WStatus.idle, errs := [] }

/-- One scheduler step of the pool, with error-channel capacity `N`:
a worker pulls a job, finishes a job cleanly, finishes a job with an
error (sending on the channel, enabled only while the buffer has room),
or exits when the job channel is exhausted. -/
inductive PoolStep (env : FetchEnv) (rep : ReportCfg) (N : Nat) :
    PoolState → PoolState → Prop where
  | pull (l r : List WStatus) (p : Panel) (rest : List Panel) (es : List String) :
      PoolStep env rep N
        { queue := p :: rest, wstats := l ++ WStatus.idle :: r, errs := es }
        { queue := rest, wstats := l ++ WStatus.busy p :: r, errs := es }
  | finishOk (l r : List WStatus) (q : List Panel) (p : Panel) (es : List String) :
      renderErr env rep p = none →
      PoolStep env rep N
        { queue := q, wstats := l ++ WStatus.busy p :: r, errs := es }
        { queue := q, wstats := l ++ WStatus.idle :: r, errs := es }
  | finishErr (l r : List WStatus) (q : List Panel) (p : Panel) (es : List String)
      (e : String) :
      renderErr env rep p = some e → es.length < N →
      PoolStep env rep N
        { queue := q, wstats := l ++ WStatus.busy p :: r, errs := es }
        { queue := q, wstats := l ++ WStatus.idle :: r, errs := es ++ [e] }
  | exit (l r : List WStatus) (es : List String) :
      PoolStep env rep N
        { queue := [], wstats := l ++ WStatus.idle :: r, errs := es }
        { queue := [], wstats := l ++ WStatus.done :: r, errs := es }

/-- Reachability under the pool's step relation. -/
inductive Reach (env : FetchEnv) (rep : ReportCfg) (N : Nat) :
    PoolState → PoolState → Prop where
  | refl (s : PoolState) : Reach env rep N s s
  | tail (s₁ s₂ s₃ : PoolState) :
      Reach env rep N s₁ s₂ → PoolStep env rep N s₂ s₃ → Reach env rep N s₁ s₃

/-- Number of `renderPNG` calls currently in flight. -/
def inFlight (s : PoolState) : Nat := s.wstats.countP WStatus.isBusy

/-- Pool invariant: the worker count is the fixed `workers`; the error
channel occupancy plus the jobs still queued or in flight never exceeds
the panel count `N`; and a worker exits only after the job channel is
empty. -/
def PoolInv (N : Nat) (s : PoolState) : Prop :=
  s.wstats.length = workers ∧
  s.errs.length + s.queue.length + inFlight s ≤ N ∧
  (WStatus.done ∈ s.wstats → s.queue = [])

/-! ## Concrete stub instances used by the witness theorems -/

/-- A concrete report configuration (empty template, so the default
template is in effect; pdflatex variant). -/
def rep0 : ReportCfg :=
  newReport "" "" "" "" "" "dash" { FromT := "", ToT := "" } "" [] "q" false "u"

/-- A concrete all-success fetch environment. -/
def envF0 : FetchEnv :=
  { getPanelPng := fun _ => Except.ok "pngbytes",
    mkdirAllErr := fun _ => none,
    createErr := fun _ => none,
    copyErr := fun _ => none }

/-- A concrete fetch environment whose panel fetch always fails. -/
def envFbad : FetchEnv :=
  { getPanelPng := fun _ => Except.error "connection refused",
    mkdirAllErr := fun _ => none,
    createErr := fun _ => none,
    copyErr := fun _ => none }

/-- A concrete panel. -/
def panel1 : Panel := { Id := 1, Title := "p1" }

/-- A concrete one-panel dashboard. -/
def dash1 : Dashboard := { Title := "d", Panels := [panel1] }

/-- A concrete empty dashboard. -/
def dash0 : Dashboard := { Title := "d", Panels := [] }

/-- A stub toolchain environment whose compilers always exit zero and
whose artifact file opens with known contents. -/
def envL1 : LatexEnv :=
  { run := fun _ => { exitErr := none, output := "ok" },
    openFile := fun _ => Except.ok "%PDF-1.4 artifact bytes" }

/-- A stub toolchain environment whose first pass exits non-zero with
combined output "X-diagnostic". -/
def envLbad : LatexEnv :=
  { run := fun _ => { exitErr := some "exit status 1", output := "X-diagnostic" },
    openFile := fun _ => Except.ok "%PDF-1.4 artifact bytes" }

/-- A trivial database environment (no rows, no failures). -/
def envDb0 : DbEnv := { openErr := none, queryErr := none, rows := [] }

/-- A database environment returning one raw row. -/
def envDb1 : DbEnv :=
  { openErr := none, queryErr := none, rows := [Except.ok ("t-raw", "c-raw")] }

/-- A concrete sanitizer stand-in. -/
def san0 (s : String) : String := "sanitized:" ++ s

/-- A writeup client with one configured id. -/
def wc1 : WriteupCl :=
  { username := "", password := "", host := "", port := "", database := "",
    ids := [7], queryStr := "q" }

/-- An all-success template environment. -/
def envT0 : TexEnv :=
  { mkdirErr := none, createErr := none, parseErr := fun _ => none, execErr := none }

/-- A template environment whose parse fails. -/
def envTparse : TexEnv :=
  { mkdirErr := none, createErr := none,
    parseErr := fun _ => some "unexpected \x7b\x7bend\x7d\x7d", execErr := none }

/-- A cleanup environment whose removals always succeed. -/
def envC0 : CleanEnv := { removeFail := fun _ => none }

/-- A cleanup state in which the workspace root was never created. -/
def st0 : CleanState := { fs := ["other/file"], logLines := [] }

/-- A cleanup state in which the workspace root of `rep0` exists with
content. -/
def st1 : CleanState :=
  { fs := ["tmp/u", "tmp/u/images/image1.png", "other/file"], logLines := [] }

/-- A full success orchestration environment over `dash1`, with the
compiler stub `envL1` (everything succeeds, artifact present). -/
def envG1 : GenEnv :=
  { getDashboard := fun _ => Except.ok dash1,
    sanitizeLaTexInput := san0,
    db := envDb0,
    fetch := envF0,
    tex := envT0,
    latex := envL1,
    order := fun d => d.Panels }

/-- An orchestration environment over `dash1` whose panel fetches fail. -/
def envG3 : GenEnv :=
  { getDashboard := fun _ => Except.ok dash1,
    sanitizeLaTexInput := san0,
    db := envDb0,
    fetch := envFbad,
    tex := envT0,
    latex := envL1,
    order := fun d => d.Panels }

/-! ## Helper lemmas -/

/-- A `renderPNG` job that returns no error has created exactly its
panel's image file. -/
theorem renderPNG_fst_of_ok (env : FetchEnv) (rep : ReportCfg) (p : Panel)
    (h : renderErr env rep p = none) :
    (renderPNG env rep p).1 = some (imgFilePath rep p) := by
  unfold renderErr renderPNG at *
  cases hg : env.getPanelPng p with
  | error e => simp [hg] at h
  | ok body =>
    cases hm : env.mkdirAllErr (imgDirPath rep) with
    | some e => simp [hg, hm] at h
    | none =>
      cases hc : env.createErr (imgFilePath rep p) with
      | some e => simp [hg, hm, hc] at h
      | none =>
        cases hcp : env.copyErr p with
        | some e => simp [hg, hm, hc, hcp] at h
        | none => simp [hg, hm, hc, hcp]

/-- The error channel drains exactly the errors of the failing jobs, in
collection order. -/
theorem runJobs_errs_eq (env : FetchEnv) (rep : ReportCfg) (order : List Panel) :
    (runJobs env rep order).errsCollected = order.filterMap (renderErr env rep) := by
  induction order with
  | nil => rfl
  | cons p rest ih =>
    cases h : (renderPNG env rep p).2 with
    | none => simp [runJobs, ih, List.filterMap_cons, renderErr, h]
    | some e => simp [runJobs, ih, List.filterMap_cons, renderErr, h]

/-- When every job succeeds, the pool writes one image file per panel in
order and collects no error. -/
theorem runJobs_of_ok (env : FetchEnv) (rep : ReportCfg) (order : List Panel)
    (h : ∀ p ∈ order, renderErr env rep p = none) :
    runJobs env rep order =
      { writes := order.map (fun p => imgFilePath rep p), errsCollected := [] } := by
  induction order with
  | nil => rfl
  | cons p rest ih =>
    have hp : renderErr env rep p = none := h p (by simp)
    have hw := renderPNG_fst_of_ok env rep p hp
    have h2 : (renderPNG env rep p).2 = none := hp
    simp [runJobs, ih (fun q hq => h q (List.mem_cons_of_mem _ hq)), hw, h2]

/-- Every section produced by the scan loop carries a sanitized title
and a sanitized content. -/
theorem scanSections_ok_sanitized (san : String → String)
    (rows : List (Except String (String × String))) (secs : List Sect)
    (h : scanSections san rows = Except.ok secs) :
    ∀ s ∈ secs, ∃ t b, s = { Title := san t, Content := san b } := by
  induction rows generalizing secs with
  | nil =>
    simp [scanSections] at h
    subst h
    simp
  | cons row rest ih =>
    cases row with
    | error e => simp [scanSections] at h
    | ok tc =>
      obtain ⟨t, c⟩ := tc
      cases hr : scanSections san rest with
      | error e => rw [scanSections, hr] at h; simp [Except.map] at h
      | ok tail =>
        rw [scanSections, hr] at h
        simp [Except.map] at h
        subst h
        intro s hs
        rcases List.mem_cons.mp hs with hs | hs
        · exact ⟨t, c, hs⟩
        · exact ih tail hr s hs

/-! ## Claim theorems -/

/-- C7: if the configured narrative id list is empty, `GetWriteup`
returns an empty `Writeup` and a nil error without opening a database
connection and without issuing a query. -/
theorem getWriteup_empty_ids_no_db (san : String → String) (env : DbEnv)
    (c : WriteupCl) (h : c.ids = []) :
    GetWriteup san env c =
      { writeup := { Sections := [] }, err := none, opened := false, queried := false } := by
  simp [GetWriteup, h]

/-- Witness for C7 at a concrete client with an empty id list. -/
theorem getWriteup_empty_ids_no_db_witness :
    GetWriteup san0 envDb0
        { username := "", password := "", host := "", port := "", database := "",
          ids := [], queryStr := "q" } =
      { writeup := { Sections := [] }, err := none, opened := false, queried := false } :=
  getWriteup_empty_ids_no_db san0 envDb0 _ rfl

/-- C10: whenever `GetWriteup` returns a non-nil error the `Writeup`
returned alongside it has no sections, and every section of any result
has had both its title and its content passed through the (abstract)
LaTeX sanitizer. -/
theorem getWriteup_error_empty_sanitized (san : String → String) (env : DbEnv)
    (c : WriteupCl) :
    ((GetWriteup san env c).err ≠ none →
      (GetWriteup san env c).writeup = { Sections := [] }) ∧
    (∀ s ∈ (GetWriteup san env c).writeup.Sections,
      ∃ t b, s = { Title := san t, Content := san b }) := by
  unfold GetWriteup
  by_cases hid : c.ids.length = 0
  · simp [hid]
  · cases ho : env.openErr with
    | some e => simp [hid, ho]
    | none =>
      cases hq : env.queryErr with
      | some e => simp [hid, ho, hq]
      | none =>
        cases hr : scanSections san env.rows with
        | error e => simp [hid, ho, hq, hr]
        | ok secs =>
          simp only [hid, ho, hq, hr, if_neg hid]
          refine ⟨fun hcontra => absurd rfl hcontra, ?_⟩
          exact scanSections_ok_sanitized san env.rows secs hr

/-- Witness for C10: the concrete one-row query result is sanitized. -/
theorem getWriteup_error_empty_sanitized_witness :
    ∃ t b, ({ Title := san0 "t-raw", Content := san0 "c-raw" } : Sect) =
      { Title := san0 t, Content := san0 b } :=
  (getWriteup_error_empty_sanitized san0 envDb1 wc1).2 _ (by decide)

/-- C8: an empty caller-supplied template string falls back to the
built-in default template; in `generateTeXFile`, workspace-directory and
tex-file creation failures, template parse failures and template
execution failures each yield a non-nil error carrying the underlying
diagnostic, and in every such case no complete document-source file is
written. -/
theorem template_and_io_error_handling (env : TexEnv) (rep : ReportCfg)
    (dbHost dbPort username password database dashName : String) (time : TimeRange)
    (ids : List Int) (queryStr : String) (ux : Bool) (uuid : String) :
    (newReport dbHost dbPort username password database dashName time "" ids
        queryStr ux uuid).texTemplate = defaultTemplate ∧
    (∀ e, env.mkdirErr = some e →
      (generateTeXFile env rep).err =
        some ("error creating temporary directory at " ++ rep.tmpDir ++ ": " ++ e) ∧
      (generateTeXFile env rep).fileComplete = false) ∧
    (∀ e, env.mkdirErr = none → env.createErr = some e →
      (generateTeXFile env rep).err =
        some ("error creating tex file at " ++ texPath rep ++ " : " ++ e) ∧
      (generateTeXFile env rep).fileComplete = false) ∧
    (∀ e, env.mkdirErr = none → env.createErr = none →
      env.parseErr rep.texTemplate = some e →
      (∃ a, (generateTeXFile env rep).err = some (a ++ e)) ∧
      (generateTeXFile env rep).fileComplete = false) ∧
    (∀ e, env.mkdirErr = none → env.createErr = none →
      env.parseErr rep.texTemplate = none → env.execErr = some e →
      (∃ a, (generateTeXFile env rep).err = some (a ++ e)) ∧
      (generateTeXFile env rep).fileComplete = false) := by
  refine ⟨by simp [newReport], ?_, ?_, ?_, ?_⟩
  · intro e hm
    simp [generateTeXFile, hm]
  · intro e hm hc
    simp [generateTeXFile, hm, hc]
  · intro e hm hc hp
    refine ⟨⟨"error parsing template '" ++ rep.texTemplate ++ "': ", ?_⟩, ?_⟩ <;>
      simp [generateTeXFile, hm, hc, hp]
  · intro e hm hc hp he
    refine ⟨⟨"error executing tex template:", ?_⟩, ?_⟩ <;>
      simp [generateTeXFile, hm, hc, hp, he]

/-- Witness for C8 at a concrete parse failure. -/
theorem template_and_io_error_handling_witness :
    (newReport "" "" "" "" "" "dash" { FromT := "", ToT := "" } "" [] "q" false
        "u").texTemplate = defaultTemplate ∧
    ((∃ a, (generateTeXFile envTparse rep0).err =
        some (a ++ "unexpected \x7b\x7bend\x7d\x7d")) ∧
      (generateTeXFile envTparse rep0).fileComplete = false) := by
  have h := template_and_io_error_handling envTparse rep0 "" "" "" "" "" "dash"
    { FromT := "", ToT := "" } [] "q" false "u"
  exact ⟨h.1, h.2.2.2.1 "unexpected \x7b\x7bend\x7d\x7d" rfl rfl rfl⟩

/-- C1 (code bug): with a toolchain stub whose two passes both exit zero
and whose artifact file `report.pdf` exists and opens with known
contents, `runLaTeX` still returns a `nil` handle (the source ends with
`pdf, err = os.Open(rep.pdfPath()); return nil, err`), so `Generate`
returns a nil handle together with a nil error — contradicting the
function's own doc comment ("Generate returns the report.pdf file") and
the claim. -/
theorem runLaTeX_success_returns_nil_handle :
    runLaTeX envL1 rep0 =
      { pdf := none, err := none,
        calls := [{ name := "pdflatex", args := ["-halt-on-error", "-draftmode", reportTexFile] },
                  { name := "pdflatex", args := ["-halt-on-error", reportTexFile] }] } ∧
    envL1.openFile (pdfPath rep0) = Except.ok "%PDF-1.4 artifact bytes" ∧
    Generate envG1 rep0 =
      { pdf := none, err := none, texInvoked := true, latexInvoked := true } :=
  ⟨rfl, rfl, rfl⟩

/-- C4: if the first compiler pass of the selected toolchain exits
non-zero with combined output `X`, `runLaTeX` returns a non-nil error
whose message contains `X`, and no second command is ever spawned. -/
theorem runLaTeX_first_pass_failure_no_second_pass (env : LatexEnv) (rep : ReportCfg)
    (ex X : String)
    (h : env.run (firstCmd rep) = { exitErr := some ex, output := X }) :
    (runLaTeX env rep).calls = [firstCmd rep] ∧
    ∃ a b, (runLaTeX env rep).err = some (a ++ X ++ b) := by
  unfold runLaTeX firstCmd at *
  cases hux : rep.useXelatex with
  | false =>
    simp only [hux, Bool.not_false, if_true] at h ⊢
    rw [h]
    exact ⟨rfl,
      "error calling LaTeX preprocessing: " ++ quoteStr ex ++
        ". Latex preprocessing failed with output: ", " ", rfl⟩
  | true =>
    simp only [hux, Bool.not_true, Bool.false_eq_true, if_false] at h ⊢
    rw [h]
    exact ⟨rfl,
      "error calling LaTeX: " ++ quoteStr ex ++ ". Latex failed with output: ",
      " ", rfl⟩

/-- Witness for C4 with a concrete failing first pass. -/
theorem runLaTeX_first_pass_failure_no_second_pass_witness :
    (runLaTeX envLbad rep0).calls = [firstCmd rep0] ∧
    ∃ a b, (runLaTeX envLbad rep0).err = some (a ++ "X-diagnostic" ++ b) :=
  runLaTeX_first_pass_failure_no_second_pass envLbad rep0 "exit status 1"
    "X-diagnostic" rfl

/-- C2 (amended): for every job completion order (any permutation of the
panel list) in which all jobs succeed, the pool writes exactly one image
file per panel, named `image<panelId>.png` under the workspace image
directory, and returns no error; this also covers N = 0, where nothing
is written — but the pool still spawns its fixed five worker goroutines
(`spawnedWorkers` is the constant `workers = 5`), so the original
"without spawning any workers" part fails. -/
theorem renderPNGsParallel_all_success_writes_all (env : FetchEnv) (rep : ReportCfg)
    (dash : Dashboard) (order : List Panel) (hperm : order.Perm dash.Panels)
    (hok : ∀ p ∈ dash.Panels, renderErr env rep p = none) :
    (renderPNGsParallel env rep order).2 = none ∧
    (renderPNGsParallel env rep order).1.writes =
      order.map (fun p => imgDirPath rep ++ "/" ++ ("image" ++ toString p.Id ++ ".png")) ∧
    (renderPNGsParallel env rep order).1.writes.length = dash.Panels.length ∧
    spawnedWorkers dash = 5 := by
  have hok' : ∀ p ∈ order, renderErr env rep p = none :=
    fun p hp => hok p (hperm.mem_iff.mp hp)
  have hr := runJobs_of_ok env rep order hok'
  refine ⟨?_, ?_, ?_, rfl⟩
  · simp [renderPNGsParallel, hr]
  · simp [renderPNGsParallel, hr, imgFilePath, imgFileName]
  · simp [renderPNGsParallel, hr, hperm.length_eq]

/-- Counterexample for C2 as stated: on the empty dashboard (N = 0) the
pool still spawns five workers, not zero. -/
theorem renderPNGsParallel_spawns_workers_when_empty :
    spawnedWorkers dash0 = 5 ∧ ¬ spawnedWorkers dash0 = 0 := by decide

/-- Witness for C2 on a concrete one-panel dashboard with an all-success
fetch environment. -/
theorem renderPNGsParallel_all_success_writes_all_witness :
    (renderPNGsParallel envF0 rep0 [panel1]).2 = none ∧
    (renderPNGsParallel envF0 rep0 [panel1]).1.writes =
      [panel1].map (fun p => imgDirPath rep0 ++ "/" ++ ("image" ++ toString p.Id ++ ".png")) ∧
    (renderPNGsParallel envF0 rep0 [panel1]).1.writes.length = dash1.Panels.length ∧
    spawnedWorkers dash1 = 5 :=
  renderPNGsParallel_all_success_writes_all envF0 rep0 dash1 [panel1]
    (List.Perm.refl _) (by decide)

/-- C3: when at least one panel job fails, the pool — after all jobs
have completed (`runJobs` processes the whole completion order before
the drain) — returns the first error in collection order, and `Generate`
returns that error wrapped, with neither `generateTeXFile` nor `runLaTeX`
ever invoked. -/
theorem generate_aborts_on_render_failure (env : GenEnv) (rep : ReportCfg)
    (dash : Dashboard)
    (hdash : env.getDashboard rep.dashName = Except.ok dash)
    (hw : (GetWriteup env.sanitizeLaTexInput env.db rep.wc).err = none)
    (hperm : (env.order dash).Perm dash.Panels)
    (hfail : ∃ p ∈ dash.Panels, renderErr env.fetch rep p ≠ none) :
    ∃ e, (renderPNGsParallel env.fetch rep (env.order dash)).2 = some e ∧
      ((env.order dash).filterMap (renderErr env.fetch rep)).head? = some e ∧
      Generate env rep =
        { pdf := none,
          err := some ("error rendering PNGs in parralel for dash " ++
            dashFmt dash ++ ": " ++ e),
          texInvoked := false, latexInvoked := false } := by
  obtain ⟨p, hp, hne⟩ := hfail
  have hpo : p ∈ env.order dash := hperm.mem_iff.mpr hp
  cases hfm : (env.order dash).filterMap (renderErr env.fetch rep) with
  | nil =>
    exact absurd (List.filterMap_eq_nil_iff.mp hfm p hpo) hne
  | cons e rest =>
    have hpool : (renderPNGsParallel env.fetch rep (env.order dash)).2 = some e := by
      simp [renderPNGsParallel, runJobs_errs_eq, hfm]
    refine ⟨e, hpool, by simp [hfm], ?_⟩
    simp [Generate, hdash, hw, hpool]

/-- Witness for C3 on a concrete dashboard whose single panel fetch
fails. -/
theorem generate_aborts_on_render_failure_witness :
    ∃ e, (renderPNGsParallel envG3.fetch rep0 (envG3.order dash1)).2 = some e ∧
      ((envG3.order dash1).filterMap (renderErr envG3.fetch rep0)).head? = some e ∧
      Generate envG3 rep0 =
        { pdf := none,
          err := some ("error rendering PNGs in parralel for dash " ++
            dashFmt dash1 ++ ": " ++ e),
          texInvoked := false, latexInvoked := false } :=
  generate_aborts_on_render_failure envG3 rep0 dash1 rfl rfl (List.Perm.refl _)
    (by decide)

/-- After a successful `removeAll`, nothing remains under the removed
root. -/
theorem existsUnder_filter_self (fs : FS) (path : String) :
    existsUnder (fs.filter fun p => !(underRoot path p)) path = false := by
  rw [existsUnder]
  rw [List.any_eq_false]
  intro p hp
  rw [List.mem_filter] at hp
  have h2 := hp.2
  simp only [Bool.not_eq_true'] at h2
  simp only [h2]
  exact Bool.false_ne_true

/-- C6: `Clean` surfaces no error to its caller (its result is just the
successor state): when the workspace root was never created it is a
no-op (in particular calling it twice is safe), when removal succeeds
the whole workspace subtree is gone and a second `Clean` changes
nothing, and when the OS-level removal fails the failure is only
appended to the log, with the filesystem result never escalated. -/
theorem clean_idempotent_and_silent (env : CleanEnv) (rep : ReportCfg)
    (s : CleanState) :
    (existsUnder s.fs rep.tmpDir = false → Clean env rep s = s) ∧
    (env.removeFail rep.tmpDir = none →
      existsUnder (Clean env rep s).fs rep.tmpDir = false ∧
      Clean env rep (Clean env rep s) = Clean env rep s) ∧
    (∀ e, env.removeFail rep.tmpDir = some e → existsUnder s.fs rep.tmpDir = true →
      (Clean env rep s).fs = s.fs ∧
      (Clean env rep s).logLines = s.logLines ++ ["Error cleaning up tmp dir: " ++ e]) := by
  obtain ⟨fs, lg⟩ := s
  have hnoop : ∀ (s' : CleanState), existsUnder s'.fs rep.tmpDir = false →
      Clean env rep s' = s' := by
    intro s' hs'
    obtain ⟨fs', lg'⟩ := s'
    simp only [Clean, removeAll]
    rw [hs']
    simp
  refine ⟨hnoop _, ?_, ?_⟩
  · intro hok
    cases hex : existsUnder fs rep.tmpDir with
    | false =>
      rw [hnoop _ hex]
      exact ⟨hex, hnoop _ hex⟩
    | true =>
      have hclean : Clean env rep { fs := fs, logLines := lg } =
          { fs := fs.filter fun p => !(underRoot rep.tmpDir p),
            logLines := lg } := by
        simp only [Clean, removeAll]
        rw [hex, hok]
        simp
      rw [hclean]
      exact ⟨existsUnder_filter_self fs rep.tmpDir,
        hnoop _ (existsUnder_filter_self fs rep.tmpDir)⟩
  · intro e he hex
    simp only [Clean, removeAll]
    rw [hex, he]
    simp

/-- Witness for C6: cleaning a never-created workspace is a no-op, and
after a successful `Clean` the workspace root of `rep0` is gone. -/
theorem clean_idempotent_and_silent_witness :
    Clean envC0 rep0 st0 = st0 ∧
    existsUnder (Clean envC0 rep0 st1).fs rep0.tmpDir = false ∧
    Clean envC0 rep0 (Clean envC0 rep0 st1) = Clean envC0 rep0 st1 := by
  have h0 := clean_idempotent_and_silent envC0 rep0 st0
  have h1 := clean_idempotent_and_silent envC0 rep0 st1
  exact ⟨h0.1 (by decide), (h1.2.1 rfl).1, (h1.2.1 rfl).2⟩

/-- The pool invariant holds initially. -/
theorem pool_inv_init (dash : Dashboard) :
    PoolInv dash.Panels.length (initState dash) := by
  refine ⟨by simp [initState, workers], ?_, ?_⟩
  · show (0 : Nat) + dash.Panels.length + inFlight (initState dash) ≤ dash.Panels.length
    have : inFlight (initState dash) = 0 := by
      simp [inFlight, initState, workers, WStatus.isBusy]
    omega
  · intro hdone
    simp [initState, List.mem_replicate] at hdone

/-- The pool invariant is preserved by every scheduler step. -/
theorem pool_inv_step (env : FetchEnv) (rep : ReportCfg) (N : Nat)
    (s s' : PoolState) (hInv : PoolInv N s) (hstep : PoolStep env rep N s s') :
    PoolInv N s' := by
  obtain ⟨hlen, hsum, hdone⟩ := hInv
  cases hstep with
  | pull l r p rest es =>
    have hnotdone : WStatus.done ∉ l ++ WStatus.idle :: r := by
      intro hmem
      have := hdone hmem
      simp at this
    refine ⟨?_, ?_, ?_⟩
    · simpa using hlen
    · simp only [inFlight, List.countP_append, List.countP_cons, WStatus.isBusy] at hsum ⊢
      simp at hsum ⊢
      omega
    · intro hd
      exfalso
      apply hnotdone
      simp only [List.mem_append, List.mem_cons] at hd ⊢
      rcases hd with h | h | h
      · exact Or.inl h
      · exact absurd h (by simp)
      · exact Or.inr (Or.inr h)
  | finishOk l r q p es hre =>
    refine ⟨?_, ?_, ?_⟩
    · simpa using hlen
    · simp only [inFlight, List.countP_append, List.countP_cons, WStatus.isBusy] at hsum ⊢
      simp at hsum ⊢
      omega
    · intro hd
      apply hdone
      simp only [List.mem_append, List.mem_cons] at hd ⊢
      rcases hd with h | h | h
      · exact Or.inl h
      · exact absurd h (by simp)
      · exact Or.inr (Or.inr h)
  | finishErr l r q p es e hre hlt =>
    refine ⟨?_, ?_, ?_⟩
    · simpa using hlen
    · simp only [inFlight, List.countP_append, List.countP_cons, WStatus.isBusy] at hsum ⊢
      simp at hsum ⊢
      omega
    · intro hd
      apply hdone
      simp only [List.mem_append, List.mem_cons] at hd ⊢
      rcases hd with h | h | h
      · exact Or.inl h
      · exact absurd h (by simp)
      · exact Or.inr (Or.inr h)
  | exit l r es =>
    refine ⟨?_, ?_, ?_⟩
    · simpa using hlen
    · simp only [inFlight, List.countP_append, List.countP_cons, WStatus.isBusy] at hsum ⊢
      simp at hsum ⊢
      omega
    · intro _
      rfl

/-- The pool invariant holds in every reachable state. -/
theorem pool_inv_reach (env : FetchEnv) (rep : ReportCfg) (N : Nat)
    (s₀ s : PoolState) (h0 : PoolInv N s₀) (h : Reach env rep N s₀ s) :
    PoolInv N s := by
  induction h with
  | refl => exact h0
  | tail s₂ s₃ hr hs ih => exact pool_inv_step env rep N s₂ s₃ ih hs

/-- C5: in every state of `renderPNGsParallel` reachable from the start,
at most `workers = 5` `renderPNG` calls are in flight concurrently. -/
theorem pool_worker_bound (env : FetchEnv) (rep : ReportCfg) (dash : Dashboard)
    (s : PoolState) (h : Reach env rep dash.Panels.length (initState dash) s) :
    inFlight s ≤ workers := by
  have hInv := pool_inv_reach env rep dash.Panels.length (initState dash) s
    (pool_inv_init dash) h
  calc inFlight s ≤ s.wstats.length := List.countP_le_length _
    _ = workers := hInv.1

/-- Witness for C5: the bound holds at the initial state of the
concrete one-panel dashboard. -/
theorem pool_worker_bound_witness : inFlight (initState dash1) ≤ workers :=
  pool_worker_bound envF0 rep0 dash1 (initState dash1) (Reach.refl _)

/-- C9: in every reachable pool state the error channel holds at most
`N = len(dash.Panels)` errors (each job pushes at most one), a worker
about to push (one with a job in flight) always finds room in the
buffer — so no error send ever blocks — and a state from which no step
is possible is exactly the terminated one: job channel drained and all
five workers exited, so the join-then-drain sequence completes. -/
theorem error_channel_bounded_and_nonblocking (env : FetchEnv) (rep : ReportCfg)
    (dash : Dashboard) (s : PoolState)
    (h : Reach env rep dash.Panels.length (initState dash) s) :
    s.errs.length ≤ dash.Panels.length ∧
    (0 < inFlight s → s.errs.length < dash.Panels.length) ∧
    ((¬ ∃ s', PoolStep env rep dash.Panels.length s s') →
      s.queue = [] ∧ ∀ w ∈ s.wstats, w = WStatus.done) := by
  obtain ⟨hlen, hsum, hdone⟩ := pool_inv_reach env rep dash.Panels.length
    (initState dash) s (pool_inv_init dash) h
  refine ⟨by omega, fun hfl => by omega, ?_⟩
  intro hstuck
  obtain ⟨q, ws, es⟩ := s
  simp only at hlen hsum hdone hstuck ⊢
  have hall : ∀ w ∈ ws, w = WStatus.done := by
    intro w hw
    by_contra hne
    obtain ⟨l, r, rfl⟩ := List.append_of_mem hw
    cases w with
    | done => exact hne rfl
    | idle =>
      cases hq : q with
      | nil =>
        subst hq
        exact hstuck ⟨_, PoolStep.exit l r es⟩
      | cons p rest =>
        subst hq
        exact hstuck ⟨_, PoolStep.pull l r p rest es⟩
    | busy p =>
      cases hre : renderErr env rep p with
      | none =>
        exact hstuck ⟨_, PoolStep.finishOk l r q p es hre⟩
      | some e =>
        have hbusy : 0 < inFlight { queue := q, wstats := l ++ WStatus.busy p :: r, errs := es } := by
          simp [inFlight, List.countP_append, List.countP_cons, WStatus.isBusy]
        have hlt : es.length < dash.Panels.length := by
          simp only [inFlight] at hbusy hsum
          omega
        exact hstuck ⟨_, PoolStep.finishErr l r q p es e hre hlt⟩
  refine ⟨?_, hall⟩
  cases hws : ws with
  | nil =>
    rw [hws] at hlen
    simp [workers] at hlen
  | cons a t =>
    have ha : a = WStatus.done := hall a (by rw [hws]; simp)
    exact hdone (by rw [hws, ha]; simp)

/-- Witness for C9 at the initial state of the concrete one-panel
dashboard. -/
theorem error_channel_bounded_and_nonblocking_witness :
    (initState dash1).errs.length ≤ dash1.Panels.length ∧
    (0 < inFlight (initState dash1) →
      (initState dash1).errs.length < dash1.Panels.length) ∧
    ((¬ ∃ s', PoolStep envF0 rep0 dash1.Panels.length (initState dash1) s') →
      (initState dash1).queue = [] ∧
      ∀ w ∈ (initState dash1).wstats, w = WStatus.done) :=
  error_channel_bounded_and_nonblocking envF0 rep0 dash1 (initState dash1)
    (Reach.refl _)

end Reporter
